import Mathlib

/-!
Shallow embedding of `prediction-creator` (src/src/main.rs), a CLI that
creates or resumes a Twitch prediction, prompts the operator for a winning
outcome (or cancel), resolves it via the Helix API, and reports the result.

Network I/O is modelled by explicit inputs (the responses the remote API
would return) and an explicit trace of the requests the program issues.
Terminal output is modelled as a list of printed lines (ANSI styling from
the `console` crate is abstracted away). Rust panics (`expect`,
`unimplemented!`) are modelled as an `aborted` outcome, propagated
`anyhow` errors as `errored`.
-/

/-- `twitch_api::types::PredictionStatus` (external DTO): the named variants
plus a constructor standing for any other status the platform could report. -/
inductive PredictionStatus : Type
  | Active
  | Locked
  | Resolved
  | Canceled
  | Other (s : String)
  deriving DecidableEq, Repr

/-- One outcome of a prediction as used by the program: its platform id and
title (vote counts and other metadata are never read by main.rs). -/
structure Outcome : Type where
  id : String
  title : String
  deriving DecidableEq, Repr

/-- `twitch_api::helix::predictions::Prediction` restricted to the fields
main.rs reads: `id`, `title`, `status`, `outcomes`. -/
structure Prediction : Type where
  id : String
  title : String
  status : PredictionStatus
  outcomes : List Outcome
  deriving DecidableEq, Repr

/-- `create_prediction::NewPredictionOutcome`: built from one title
(main.rs line 27). -/
structure NewPredictionOutcome : Type where
  title : String
  deriving DecidableEq, Repr

/-- `create_prediction::CreatePredictionBody` (main.rs lines 29-34). -/
structure CreatePredictionBody : Type where
  broadcaster_id : String
  title : String
  outcomes : List NewPredictionOutcome
  prediction_window : Int
  deriving DecidableEq, Repr

/-- `end_prediction::EndPredictionBody` (main.rs line 77): broadcaster id,
prediction id, new status, and the optional winning outcome id. -/
structure EndPredictionBody : Type where
  broadcaster_id : String
  id : String
  status : PredictionStatus
  winning_outcome_id : Option String
  deriving DecidableEq, Repr

/-- `end_prediction::EndPrediction`, the response enum matched at main.rs
lines 208-220: `Success`, `MissingQuery`, `AuthFailed`, and a constructor
for the catch-all `unknown` arm of the source match. -/
inductive EndPrediction : Type
  | Success (p : Prediction)
  | MissingQuery
  | AuthFailed
  | Other (s : String)
  deriving DecidableEq, Repr

/-- Debug rendering of an `EndPrediction`, standing for Rust `{:?}`
(used in the `ERROR:` lines of main.rs lines 214 and 217). -/
def end_prediction_debug : EndPrediction → String
  | EndPrediction.Success p => "Success(" ++ p.id ++ ")"
  | EndPrediction.MissingQuery => "MissingQuery"
  | EndPrediction.AuthFailed => "AuthFailed"
  | EndPrediction.Other s => s

/-- Debug rendering of an `Outcome`, standing for Rust `{:?}` in
"Resolving with this outcome ..." (main.rs line 185). -/
def outcome_debug (o : Outcome) : String :=
  "Outcome \x7b id: \"" ++ o.id ++ "\", title: \"" ++ o.title ++ "\" \x7d"

/-- The clap-derived `App` struct (main.rs lines 88-102). -/
structure App : Type where
  title : String
  outcome : List String
  prediction_window : Int
  deriving DecidableEq, Repr

/-- clap flag parsing for `App`: `--title`, repeated `--outcome`, and
`--prediction-window` with `default_value = "30"` (main.rs line 100). -/
def appOfArgs (title : String) (outcomes : List String)
    (prediction_window : Option Int) : App :=
  { title := title, outcome := outcomes,
    prediction_window := prediction_window.getD 30 }

/-- `parse_args` (main.rs lines 104-122), after clap has produced the `App`:
bails when fewer than 2 or more than 5 outcomes were supplied. -/
def parse_args (app : App) : Except String App :=
  let num_outcomes := app.outcome.length
  if num_outcomes < 2 then
    Except.error
      ("You must provide at least 2 outcomes with --outcome, you provided "
        ++ toString num_outcomes)
  else if num_outcomes > 5 then
    Except.error
      ("You may provide at most 5 outcomes with --outcome, you provided "
        ++ toString num_outcomes)
  else
    Except.ok app

/-- `start_prediction` (main.rs lines 16-43) as the request body it sends:
outcome objects are mapped from the option titles in order, and the body
carries the channel id, title, outcomes and prediction window. -/
def start_prediction (channel_id : String) (title : String)
    (options : List String) (prediction_window : Int) : CreatePredictionBody :=
  { broadcaster_id := channel_id, title := title,
    outcomes := options.map (fun o => { title := o }),
    prediction_window := prediction_window }

/-- `get_last_prediction` (main.rs lines 45-66) applied to the response
list: `Vec::pop` takes the last element; it is returned exactly when its
status is `Active` or `Locked`. -/
def get_last_prediction (response : List Prediction) : Option Prediction :=
  match response.getLast? with
  | some last_prediction =>
    if last_prediction.status = PredictionStatus.Active
        ∨ last_prediction.status = PredictionStatus.Locked then
      some last_prediction
    else
      none
  | none => none

/-- `end_prediction` (main.rs lines 68-85) as the request body it sends:
built from channel id, prediction id and new status, with
`winning_outcome_id` set only when one is supplied. -/
def end_prediction (channel_id : String) (prediction_id : String)
    (new_status : PredictionStatus) (winning_outcome_id : Option String) :
    EndPredictionBody :=
  let body : EndPredictionBody :=
    { broadcaster_id := channel_id, id := prediction_id,
      status := new_status, winning_outcome_id := none }
  match winning_outcome_id with
  | some w => { body with winning_outcome_id := some w }
  | none => body

/-- One observable interaction of `main`: a create-prediction POST, the
interactive select prompt with its menu items, or an end-prediction PATCH. -/
inductive Call : Type
  | create (body : CreatePredictionBody)
  | prompt (items : List String)
  | endPred (body : EndPredictionBody)
  deriving DecidableEq, Repr

/-- Is this trace entry a create-prediction request? -/
def Call.isCreate : Call → Bool
  | Call.create _ => true
  | _ => false

/-- Is this trace entry an end-prediction request? -/
def Call.isEnd : Call → Bool
  | Call.endPred _ => true
  | _ => false

/-- Is this trace entry the interactive prompt? -/
def Call.isPrompt : Call → Bool
  | Call.prompt _ => true
  | _ => false

/-- How one invocation of `main` terminates: normal return (`Ok(())`,
exit 0), a propagated `anyhow` error, or a Rust panic. -/
inductive MainOutcome : Type
  | ok
  | errored (msg : String)
  | aborted (msg : String)
  deriving DecidableEq, Repr

/-- Process exit code for each way `main` can terminate: 0 for `Ok(())`,
1 for a propagated error, 101 for a panic. -/
def exitCode : MainOutcome → Nat
  | MainOutcome.ok => 0
  | MainOutcome.errored _ => 1
  | MainOutcome.aborted _ => 101

/-- The validated-token response (`token.validate_token`): its optional
login and optional user id, the two fields main.rs `expect`s. -/
structure ValidatedToken : Type where
  login : Option String
  user_id : Option String
  deriving DecidableEq, Repr

/-- The external responses one invocation of `main` consumes: the validated
token, the get-predictions response list, the prediction returned by a
create call, the operator's selection index, and the end-prediction
response. -/
structure World : Type where
  broadcaster : ValidatedToken
  lookupResponse : List Prediction
  createResponse : Prediction
  selection : Nat
  endResponse : EndPrediction
  deriving DecidableEq, Repr

/-- The interactive menu (main.rs lines 170-176): each outcome rendered as
"[i+1] title" in order, then a trailing "CANCEL" entry. -/
def menuItems (options : List Outcome) : List String :=
  (options.enum.map
    (fun p => "[" ++ toString (p.1 + 1) ++ "] " ++ p.2.title))
    ++ ["CANCEL"]

/-- The reuse-or-create step (main.rs lines 140-167): if the lookup found a
prediction it is reused with a "Found already active prediction" line and
no request; otherwise a create request is issued and its response used. -/
def lookupStep (broadcaster_user_id broadcaster_login : String) (app : App)
    (lookup : Option Prediction) (created : Prediction) :
    Prediction × List Call × List String :=
  match lookup with
  | some current_prediction =>
    (current_prediction, [],
      ["Found already active prediction: " ++ current_prediction.title])
  | none =>
    (created,
      [Call.create (start_prediction broadcaster_user_id app.title
        app.outcome app.prediction_window)],
      ["Starting prediction for " ++ broadcaster_login ++ " ("
        ++ broadcaster_user_id ++ "): " ++ app.title])

/-- The resolution step (main.rs lines 184-206): if the selection indexes an
outcome, an end-prediction request with status `Resolved` and that
outcome's id; otherwise (the trailing CANCEL entry) status `Canceled` with
no winning outcome id. -/
def selectionStep (broadcaster_user_id : String) (prediction : Prediction)
    (selection : Nat) : Call × String :=
  match prediction.outcomes.get? selection with
  | some selected_outcome =>
    (Call.endPred (end_prediction broadcaster_user_id prediction.id
        PredictionStatus.Resolved (some selected_outcome.id)),
      "Resolving with this outcome " ++ outcome_debug selected_outcome)
  | none =>
    (Call.endPred (end_prediction broadcaster_user_id prediction.id
        PredictionStatus.Canceled none),
      "Cancelling")

/-- The reporting step (main.rs lines 208-220): `Success` prints a
confirmation, `MissingQuery` and `AuthFailed` print the error detail, and
any other variant hits `unimplemented!`. -/
def reportStep (response : EndPrediction) : List String × MainOutcome :=
  match response with
  | EndPrediction.Success _ =>
    (["Successfully ended prediction"], MainOutcome.ok)
  | EndPrediction.MissingQuery =>
    (["ERROR: Bad prediction body: "
        ++ end_prediction_debug EndPrediction.MissingQuery], MainOutcome.ok)
  | EndPrediction.AuthFailed =>
    (["ERROR: Auth failed: "
        ++ end_prediction_debug EndPrediction.AuthFailed], MainOutcome.ok)
  | EndPrediction.Other s =>
    ([], MainOutcome.aborted ("Unimplemented end_prediction response " ++ s))

/-- The body of `main` after token validation (main.rs lines 136-222),
over its explicit inputs: the two `expect`s on the validated token, then
the reuse-or-create step, the prompt, the resolution step and the report.
Returns the request trace, the printed lines and the termination outcome. -/
def runMain (app : App) (login user_id : Option String)
    (lookup : Option Prediction) (created : Prediction) (selection : Nat)
    (response : EndPrediction) : List Call × List String × MainOutcome :=
  match login with
  | none => ([], [], MainOutcome.aborted "token to contain a login")
  | some broadcaster_login =>
    match user_id with
    | none => ([], [], MainOutcome.aborted "token to contain a user id")
    | some broadcaster_user_id =>
      let step := lookupStep broadcaster_user_id broadcaster_login app
        lookup created
      let prediction := step.1
      let items := menuItems prediction.outcomes
      let sel := selectionStep broadcaster_user_id prediction selection
      let rep := reportStep response
      (step.2.1 ++ [Call.prompt items] ++ [sel.1],
        step.2.2 ++ [sel.2] ++ rep.1,
        rep.2)

/-- `main` from successfully parsed arguments onward, over a `World` of
external responses: lookup processing (`get_last_prediction`) feeds the
reuse-or-create decision. -/
def mainRun (app : App) (w : World) : List Call × List String × MainOutcome :=
  runMain app w.broadcaster.login w.broadcaster.user_id
    (get_last_prediction w.lookupResponse) w.createResponse w.selection
    w.endResponse

/-- `main` including `parse_args` (main.rs line 126): a parse error is
propagated as a non-zero-exit error before any other step runs. -/
def mainEntry (app : App) (w : World) : List Call × List String × MainOutcome :=
  match parse_args app with
  | Except.error e => ([], [], MainOutcome.errored e)
  | Except.ok app2 => mainRun app2 w

/-- The prediction the interactive part of `main` operates on: the one the
lookup found if any, else the one the create call returned. -/
def chosenPrediction (lookup : Option Prediction) (created : Prediction) :
    Prediction :=
  lookup.getD created

/-! ## Claim theorems -/

/-- C1: for every outcome list with length between 2 and 5 inclusive,
`parse_args` succeeds and returns the parsed `App`; for fewer than 2 or
more than 5 outcomes it fails with a descriptive (nonempty) error message
and the process exits non-zero. -/
theorem parse_args_count_spec (app : App) :
    (2 ≤ app.outcome.length → app.outcome.length ≤ 5 →
      parse_args app = Except.ok app) ∧
    (app.outcome.length < 2 ∨ 5 < app.outcome.length →
      ∃ msg, parse_args app = Except.error msg ∧ 0 < msg.length ∧
        ∀ w : World, exitCode (mainEntry app w).2.2 ≠ 0) := by
  constructor
  · intro h2 h5
    have hn2 : ¬ app.outcome.length < 2 := by omega
    have hn5 : ¬ app.outcome.length > 5 := by omega
    simp [parse_args, hn2, hn5]
  · intro h
    rcases h with h | h
    · have hp : parse_args app = Except.error
          ("You must provide at least 2 outcomes with --outcome, you provided "
            ++ toString app.outcome.length) := by
        simp [parse_args, h]
      refine ⟨_, hp, ?_, ?_⟩
      · rw [String.length_append]
        have hpos :
            0 < ("You must provide at least 2 outcomes with --outcome, you provided ").length := by
          decide
        omega
      · intro w
        simp [mainEntry, hp, exitCode]
    · have hn2 : ¬ app.outcome.length < 2 := by omega
      have h5 : app.outcome.length > 5 := h
      have hp : parse_args app = Except.error
          ("You may provide at most 5 outcomes with --outcome, you provided "
            ++ toString app.outcome.length) := by
        simp [parse_args, hn2, h5]
      refine ⟨_, hp, ?_, ?_⟩
      · rw [String.length_append]
        have hpos :
            0 < ("You may provide at most 5 outcomes with --outcome, you provided ").length := by
          decide
        omega
      · intro w
        simp [mainEntry, hp, exitCode]

/-- Witness for C1: with three outcomes `parse_args` succeeds. -/
theorem parse_args_count_spec_witness :
    parse_args { title := "t", outcome := ["a", "b", "c"], prediction_window := 30 }
      = Except.ok { title := "t", outcome := ["a", "b", "c"], prediction_window := 30 } :=
  (parse_args_count_spec _).1 (by decide) (by decide)

/-- C9: argument validation checks nothing beyond the outcome count: for
any outcome list of length 2-5, `parse_args` succeeds regardless of the
title (including the empty string) and the prediction window (including
zero and negative integers). -/
theorem parse_args_only_counts (title : String) (outs : List String)
    (window : Int) (h2 : 2 ≤ outs.length) (h5 : outs.length ≤ 5) :
    parse_args { title := title, outcome := outs, prediction_window := window }
      = Except.ok { title := title, outcome := outs, prediction_window := window } := by
  have hn2 : ¬ outs.length < 2 := by omega
  have hn5 : ¬ outs.length > 5 := by omega
  simp [parse_args, hn2, hn5]

/-- Witness for C9: empty title and negative window are accepted with two
outcomes. -/
theorem parse_args_only_counts_witness :
    parse_args { title := "", outcome := ["", "x"], prediction_window := -7 }
      = Except.ok { title := "", outcome := ["", "x"], prediction_window := -7 } :=
  parse_args_only_counts "" ["", "x"] (-7) (by decide) (by decide)

/-- C2: `get_last_prediction` on the empty response list returns none; on a
response whose last element is `p`, it returns `p` exactly when `p`'s
status is Active or Locked, and none for every other status. -/
theorem get_last_prediction_spec :
    get_last_prediction [] = none ∧
    ∀ (response : List Prediction) (p : Prediction),
      response.getLast? = some p →
      ((p.status = PredictionStatus.Active ∨ p.status = PredictionStatus.Locked) →
        get_last_prediction response = some p) ∧
      (p.status ≠ PredictionStatus.Active → p.status ≠ PredictionStatus.Locked →
        get_last_prediction response = none) := by
  constructor
  · rfl
  · intro response p hlast
    constructor
    · intro hstat
      simp [get_last_prediction, hlast, hstat]
    · intro hna hnl
      simp [get_last_prediction, hlast, hna, hnl]

/-- Witness for C2: a one-element response with a Locked prediction is
returned; with a Resolved one, none is. -/
theorem get_last_prediction_spec_witness :
    get_last_prediction
        [{ id := "p1", title := "T", status := PredictionStatus.Locked, outcomes := [] }]
      = some { id := "p1", title := "T", status := PredictionStatus.Locked, outcomes := [] }
    ∧ get_last_prediction
        [{ id := "p2", title := "T", status := PredictionStatus.Resolved, outcomes := [] }]
      = none :=
  ⟨(get_last_prediction_spec.2
      [{ id := "p1", title := "T", status := PredictionStatus.Locked, outcomes := [] }]
      { id := "p1", title := "T", status := PredictionStatus.Locked, outcomes := [] }
      rfl).1 (Or.inr rfl),
   (get_last_prediction_spec.2
      [{ id := "p2", title := "T", status := PredictionStatus.Resolved, outcomes := [] }]
      _ rfl).2 (by decide) (by decide)⟩

/-- Reduction of `runMain` once both token fields are present. -/
theorem runMain_some_some (app : App) (l u : String) (lookup : Option Prediction)
    (created : Prediction) (selection : Nat) (response : EndPrediction) :
    runMain app (some l) (some u) lookup created selection response =
      ((lookupStep u l app lookup created).2.1
        ++ [Call.prompt (menuItems (lookupStep u l app lookup created).1.outcomes)]
        ++ [(selectionStep u (lookupStep u l app lookup created).1 selection).1],
       (lookupStep u l app lookup created).2.2
        ++ [(selectionStep u (lookupStep u l app lookup created).1 selection).2]
        ++ (reportStep response).1,
       (reportStep response).2) := rfl

/-- The prediction produced by the reuse-or-create step is the looked-up one
if any, else the created one. -/
theorem lookupStep_fst (u l : String) (app : App) (lookup : Option Prediction)
    (created : Prediction) :
    (lookupStep u l app lookup created).1 = chosenPrediction lookup created := by
  cases lookup <;> rfl

/-- C3: whenever the operator's selection index is within the bounds of the
prediction's outcome list, the trace carries exactly one end-prediction
request, with status Resolved and the selected outcome's id. -/
theorem resolve_selected_outcome (app : App) (w : World) (l u : String) (o : Outcome)
    (hl : w.broadcaster.login = some l) (hu : w.broadcaster.user_id = some u)
    (ho : (chosenPrediction (get_last_prediction w.lookupResponse)
        w.createResponse).outcomes.get? w.selection = some o) :
    ((mainRun app w).1).filter Call.isEnd =
      [Call.endPred (end_prediction u
        (chosenPrediction (get_last_prediction w.lookupResponse) w.createResponse).id
        PredictionStatus.Resolved (some o.id))] := by
  unfold mainRun
  rw [hl, hu, runMain_some_some]
  cases hlk : get_last_prediction w.lookupResponse with
  | none =>
    rw [hlk] at ho
    simp only [chosenPrediction, Option.getD_none] at ho ⊢
    rw [List.get?_eq_getElem?] at ho
    simp [lookupStep, selectionStep, ho, List.filter_append, Call.isEnd]
  | some p =>
    rw [hlk] at ho
    simp only [chosenPrediction, Option.getD_some] at ho ⊢
    rw [List.get?_eq_getElem?] at ho
    simp [lookupStep, selectionStep, ho, List.filter_append, Call.isEnd]

/-- C4: whenever the operator selects the trailing CANCEL entry (index equal
to the number of outcomes), the trace carries exactly one end-prediction
request, with status Canceled and no winning outcome id. -/
theorem cancel_trailing_selection (app : App) (w : World) (l u : String)
    (hl : w.broadcaster.login = some l) (hu : w.broadcaster.user_id = some u)
    (hs : w.selection = (chosenPrediction (get_last_prediction w.lookupResponse)
        w.createResponse).outcomes.length) :
    ((mainRun app w).1).filter Call.isEnd =
      [Call.endPred (end_prediction u
        (chosenPrediction (get_last_prediction w.lookupResponse) w.createResponse).id
        PredictionStatus.Canceled none)]
    ∧ (end_prediction u
        (chosenPrediction (get_last_prediction w.lookupResponse) w.createResponse).id
        PredictionStatus.Canceled none).winning_outcome_id = none := by
  have hnone : (chosenPrediction (get_last_prediction w.lookupResponse)
      w.createResponse).outcomes.get? w.selection = none := by
    rw [hs]
    exact List.get?_eq_none.2 (le_refl _)
  constructor
  · unfold mainRun
    rw [hl, hu, runMain_some_some]
    cases hlk : get_last_prediction w.lookupResponse with
    | none =>
      rw [hlk] at hnone
      simp only [chosenPrediction, Option.getD_none] at hnone ⊢
      rw [List.get?_eq_getElem?] at hnone
      simp [lookupStep, selectionStep, hnone, List.filter_append, Call.isEnd]
    | some p =>
      rw [hlk] at hnone
      simp only [chosenPrediction, Option.getD_some] at hnone ⊢
      rw [List.get?_eq_getElem?] at hnone
      simp [lookupStep, selectionStep, hnone, List.filter_append, Call.isEnd]
  · rfl

/-- Sample outcome used by concrete witnesses. -/
def sampleOutcomeWin : Outcome := { id := "out1", title := "Win" }

/-- Second sample outcome used by concrete witnesses. -/
def sampleOutcomeLose : Outcome := { id := "out2", title := "Lose" }

/-- Sample locked prediction used by concrete witnesses. -/
def samplePrediction : Prediction :=
  { id := "pred1", title := "Match", status := PredictionStatus.Locked,
    outcomes := [sampleOutcomeWin, sampleOutcomeLose] }

/-- Sample parsed arguments used by concrete witnesses. -/
def sampleApp : App :=
  { title := "Match", outcome := ["Win", "Lose"], prediction_window := 30 }

/-- Sample validated token with both fields present. -/
def sampleToken : ValidatedToken := { login := some "streamer", user_id := some "123" }

/-- Sample world where the lookup finds a locked prediction and outcome 0 is
selected. -/
def sampleWorldExisting : World :=
  { broadcaster := sampleToken, lookupResponse := [samplePrediction],
    createResponse := samplePrediction, selection := 0,
    endResponse := EndPrediction.Success samplePrediction }

/-- Sample world where the lookup response is empty. -/
def sampleWorldFresh : World :=
  { broadcaster := sampleToken, lookupResponse := [],
    createResponse := samplePrediction, selection := 0,
    endResponse := EndPrediction.Success samplePrediction }

/-- Sample world where the trailing CANCEL entry (index 2) is selected. -/
def sampleWorldCancel : World :=
  { broadcaster := sampleToken, lookupResponse := [samplePrediction],
    createResponse := samplePrediction, selection := 2,
    endResponse := EndPrediction.Success samplePrediction }

/-- Sample world whose end-prediction response is MissingQuery. -/
def sampleWorldMissing : World :=
  { broadcaster := sampleToken, lookupResponse := [samplePrediction],
    createResponse := samplePrediction, selection := 0,
    endResponse := EndPrediction.MissingQuery }

/-- Sample world whose validated token lacks a login. -/
def sampleWorldNoLogin : World :=
  { broadcaster := { login := none, user_id := some "123" },
    lookupResponse := [samplePrediction], createResponse := samplePrediction,
    selection := 0, endResponse := EndPrediction.Success samplePrediction }

/-- Witness for C3: selecting index 0 on the locked sample prediction issues
one Resolved end-prediction request with outcome id "out1". -/
theorem resolve_selected_outcome_witness :
    ((mainRun sampleApp sampleWorldExisting).1).filter Call.isEnd =
      [Call.endPred (end_prediction "123"
        (chosenPrediction (get_last_prediction sampleWorldExisting.lookupResponse)
          sampleWorldExisting.createResponse).id
        PredictionStatus.Resolved (some sampleOutcomeWin.id))] :=
  resolve_selected_outcome sampleApp sampleWorldExisting "streamer" "123"
    sampleOutcomeWin rfl rfl (by decide)

/-- Witness for C4: selecting index 2 (the CANCEL entry after two outcomes)
issues one Canceled end-prediction request carrying no winning outcome id. -/
theorem cancel_trailing_selection_witness :
    ((mainRun sampleApp sampleWorldCancel).1).filter Call.isEnd =
      [Call.endPred (end_prediction "123"
        (chosenPrediction (get_last_prediction sampleWorldCancel.lookupResponse)
          sampleWorldCancel.createResponse).id
        PredictionStatus.Canceled none)]
    ∧ (end_prediction "123"
        (chosenPrediction (get_last_prediction sampleWorldCancel.lookupResponse)
          sampleWorldCancel.createResponse).id
        PredictionStatus.Canceled none).winning_outcome_id = none :=
  cancel_trailing_selection sampleApp sampleWorldCancel "streamer" "123"
    rfl rfl (by decide)

/-- C5: when the lookup finds an existing (Active or Locked) prediction, no
create-prediction request is issued, and the prompt presents exactly the
menu built from the existing prediction's outcomes. -/
theorem reuse_existing_prediction (app : App) (w : World) (l u : String)
    (p : Prediction)
    (hl : w.broadcaster.login = some l) (hu : w.broadcaster.user_id = some u)
    (hp : get_last_prediction w.lookupResponse = some p) :
    ((mainRun app w).1).filter Call.isCreate = []
    ∧ ((mainRun app w).1).filter Call.isPrompt =
        [Call.prompt (menuItems p.outcomes)] := by
  unfold mainRun
  rw [hl, hu, runMain_some_some, hp]
  cases hsel : p.outcomes[w.selection]? <;>
    constructor <;>
      simp [lookupStep, selectionStep, hsel, List.filter_append,
        Call.isCreate, Call.isPrompt]

/-- Witness for C5: with a locked prediction in the lookup response, the
trace has no create request and prompts with that prediction's outcomes. -/
theorem reuse_existing_prediction_witness :
    ((mainRun sampleApp sampleWorldExisting).1).filter Call.isCreate = []
    ∧ ((mainRun sampleApp sampleWorldExisting).1).filter Call.isPrompt =
        [Call.prompt (menuItems samplePrediction.outcomes)] :=
  reuse_existing_prediction sampleApp sampleWorldExisting "streamer" "123"
    samplePrediction rfl rfl (by decide)

/-- C6: when the lookup returns none, exactly one create-prediction request
is issued, carrying the supplied title, the supplied outcome titles in
order, and the supplied window; the window defaults to 30 when the flag is
absent. -/
theorem create_when_no_active (app : App) (w : World) (l u : String)
    (hl : w.broadcaster.login = some l) (hu : w.broadcaster.user_id = some u)
    (hn : get_last_prediction w.lookupResponse = none) :
    ((mainRun app w).1).filter Call.isCreate =
      [Call.create (start_prediction u app.title app.outcome
        app.prediction_window)]
    ∧ (start_prediction u app.title app.outcome
        app.prediction_window).outcomes.map NewPredictionOutcome.title
        = app.outcome
    ∧ (start_prediction u app.title app.outcome
        app.prediction_window).title = app.title
    ∧ (start_prediction u app.title app.outcome
        app.prediction_window).prediction_window = app.prediction_window
    ∧ (∀ (t : String) (os : List String),
        (appOfArgs t os none).prediction_window = 30) := by
  refine ⟨?_, ?_, rfl, rfl, fun t os => rfl⟩
  · unfold mainRun
    rw [hl, hu, runMain_some_some, hn]
    cases hsel : w.createResponse.outcomes[w.selection]? <;>
      simp [lookupStep, selectionStep, hsel, List.filter_append, Call.isCreate]
  · simp only [start_prediction, List.map_map]
    exact List.map_id app.outcome

/-- Witness for C6: with an empty lookup response, the trace carries exactly
the create request for ["Win","Lose"] with window 30. -/
theorem create_when_no_active_witness :
    ((mainRun sampleApp sampleWorldFresh).1).filter Call.isCreate =
      [Call.create (start_prediction "123" sampleApp.title sampleApp.outcome
        sampleApp.prediction_window)]
    ∧ (start_prediction "123" sampleApp.title sampleApp.outcome
        sampleApp.prediction_window).outcomes.map NewPredictionOutcome.title
        = sampleApp.outcome
    ∧ (start_prediction "123" sampleApp.title sampleApp.outcome
        sampleApp.prediction_window).title = sampleApp.title
    ∧ (start_prediction "123" sampleApp.title sampleApp.outcome
        sampleApp.prediction_window).prediction_window
        = sampleApp.prediction_window
    ∧ (∀ (t : String) (os : List String),
        (appOfArgs t os none).prediction_window = 30) :=
  create_when_no_active sampleApp sampleWorldFresh "streamer" "123"
    rfl rfl (by decide)

/-- C7: on a Success end-prediction response the confirmation line is the
last printed line and the run completes; on MissingQuery or AuthFailed the
error detail is printed; on any other variant the program aborts with the
`unimplemented!` panic. -/
theorem end_response_report (app : App) (w : World) (l u : String)
    (hl : w.broadcaster.login = some l) (hu : w.broadcaster.user_id = some u) :
    (∀ p : Prediction, w.endResponse = EndPrediction.Success p →
      ((mainRun app w).2.1).getLast? = some "Successfully ended prediction"
      ∧ (mainRun app w).2.2 = MainOutcome.ok) ∧
    (w.endResponse = EndPrediction.MissingQuery →
      ((mainRun app w).2.1).getLast? = some ("ERROR: Bad prediction body: "
        ++ end_prediction_debug EndPrediction.MissingQuery)
      ∧ (mainRun app w).2.2 = MainOutcome.ok) ∧
    (w.endResponse = EndPrediction.AuthFailed →
      ((mainRun app w).2.1).getLast? = some ("ERROR: Auth failed: "
        ++ end_prediction_debug EndPrediction.AuthFailed)
      ∧ (mainRun app w).2.2 = MainOutcome.ok) ∧
    (∀ s : String, w.endResponse = EndPrediction.Other s →
      (mainRun app w).2.2 =
        MainOutcome.aborted ("Unimplemented end_prediction response " ++ s)) := by
  unfold mainRun
  rw [hl, hu, runMain_some_some]
  refine ⟨?_, ?_, ?_, ?_⟩
  · intro p hresp
    rw [hresp]
    exact ⟨List.getLast?_concat _, rfl⟩
  · intro hresp
    rw [hresp]
    exact ⟨List.getLast?_concat _, rfl⟩
  · intro hresp
    rw [hresp]
    exact ⟨List.getLast?_concat _, rfl⟩
  · intro s hresp
    rw [hresp]
    rfl

/-- Witness for C7: the sample Success response run ends with the
confirmation line and returns normally. -/
theorem end_response_report_witness :
    ((mainRun sampleApp sampleWorldExisting).2.1).getLast? =
      some "Successfully ended prediction"
    ∧ (mainRun sampleApp sampleWorldExisting).2.2 = MainOutcome.ok :=
  (end_response_report sampleApp sampleWorldExisting "streamer" "123"
    rfl rfl).1 samplePrediction rfl

/-- C8: a MissingQuery or AuthFailed end-prediction response still lets
`main` return `Ok(())` with exit code 0, the same success result as the
Success variant. -/
theorem end_response_still_ok (app : App) (w : World) (l u : String)
    (hl : w.broadcaster.login = some l) (hu : w.broadcaster.user_id = some u) :
    ((w.endResponse = EndPrediction.MissingQuery
        ∨ w.endResponse = EndPrediction.AuthFailed) →
      (mainRun app w).2.2 = MainOutcome.ok
      ∧ exitCode (mainRun app w).2.2 = 0) ∧
    (∀ p : Prediction, w.endResponse = EndPrediction.Success p →
      (mainRun app w).2.2 = MainOutcome.ok
      ∧ exitCode (mainRun app w).2.2 = 0) := by
  unfold mainRun
  rw [hl, hu, runMain_some_some]
  constructor
  · rintro (hresp | hresp) <;> rw [hresp] <;> exact ⟨rfl, rfl⟩
  · intro p hresp
    rw [hresp]
    exact ⟨rfl, rfl⟩

/-- Witness for C8: the sample MissingQuery response run still exits 0. -/
theorem end_response_still_ok_witness :
    (mainRun sampleApp sampleWorldMissing).2.2 = MainOutcome.ok
    ∧ exitCode (mainRun sampleApp sampleWorldMissing).2.2 = 0 :=
  (end_response_still_ok sampleApp sampleWorldMissing "streamer" "123"
    rfl rfl).1 (Or.inl rfl)

/-- C10: a validated token lacking a login, or lacking a user id, makes the
program abort with the corresponding `expect` panic before any request or
prompt; conversely any run that reaches a request or the prompt has both
fields present. -/
theorem token_fields_required (app : App) (w : World) :
    (w.broadcaster.login = none →
      mainRun app w = ([], [], MainOutcome.aborted "token to contain a login")) ∧
    (∀ l : String, w.broadcaster.login = some l → w.broadcaster.user_id = none →
      mainRun app w =
        ([], [], MainOutcome.aborted "token to contain a user id")) ∧
    ((mainRun app w).1 ≠ [] →
      w.broadcaster.login.isSome ∧ w.broadcaster.user_id.isSome) := by
  refine ⟨?_, ?_, ?_⟩
  · intro h
    unfold mainRun
    rw [h]
    rfl
  · intro l hl hu
    unfold mainRun
    rw [hl, hu]
    rfl
  · intro hne
    cases hlog : w.broadcaster.login with
    | none =>
      exact absurd (by unfold mainRun; rw [hlog]; rfl) hne
    | some l =>
      cases huid : w.broadcaster.user_id with
      | none =>
        exact absurd (by unfold mainRun; rw [hlog, huid]; rfl) hne
      | some u =>
        exact ⟨rfl, rfl⟩

/-- Witness for C10: the sample world without a login aborts with the
login `expect` panic. -/
theorem token_fields_required_witness :
    mainRun sampleApp sampleWorldNoLogin =
      ([], [], MainOutcome.aborted "token to contain a login") :=
  (token_fields_required sampleApp sampleWorldNoLogin).1 rfl
